import Mathlib

/-!
Verification of the levy rebalancing core of `asf_levies_model`.

The Python source (`asf_levies_model/levies.py`, `tariffs.py`, `summary.py`)
is shallowly embedded here: Python floats become rationals (`ℚ`), values that
may be `NaN`/`None` become `Option ℚ`, and methods that may raise become
functions returning an `Except` or an explicit result record.  The float
literals `0.01`, `1.05`, `365/100`, and so on are rendered as the exact
rationals they denote in the source text.
-/

namespace AsfLeviesModel

/-- Embedding of the `Levy` class attributes (`levies.py`, `Levy.__init__`). -/
structure Levy where
  name : String
  short_name : String
  electricity_weight : ℚ
  gas_weight : ℚ
  tax_weight : ℚ
  electricity_variable_weight : ℚ
  electricity_fixed_weight : ℚ
  gas_variable_weight : ℚ
  gas_fixed_weight : ℚ
  electricity_variable_rate : ℚ
  electricity_fixed_rate : ℚ
  gas_variable_rate : ℚ
  gas_fixed_rate : ℚ
  general_taxation : ℚ
  revenue : ℚ
deriving DecidableEq, Repr

/-- Method `Levy.calculate_variable_levy` from `levies.py`. -/
def Levy.calculate_variable_levy (self : Levy)
    (electricity_consumption gas_consumption : ℚ) : ℚ :=
  self.electricity_variable_rate * electricity_consumption
    + self.gas_variable_rate * gas_consumption

/-- Method `Levy.calculate_fixed_levy` from `levies.py`; Python multiplies a rate by a
bool, which is 1 for `True` and 0 for `False`. -/
def Levy.calculate_fixed_levy (self : Levy)
    (electricity_customer gas_customer : Bool) : ℚ :=
  self.electricity_fixed_rate * (if electricity_customer then 1 else 0)
    + self.gas_fixed_rate * (if gas_customer then 1 else 0)

/-- Method `Levy.calculate_levy` from `levies.py`. -/
def Levy.calculate_levy (self : Levy)
    (electricity_consumption gas_consumption : ℚ)
    (electricity_customer gas_customer : Bool) : ℚ :=
  self.calculate_variable_levy electricity_consumption gas_consumption
    + self.calculate_fixed_levy electricity_customer gas_customer

/-- Method `Levy._is_revenue_maintained` from `levies.py`: the rebalancing
conservation check with absolute tolerance `0.01`. -/
def Levy._is_revenue_maintained
    (new_levy_var_gas new_levy_var_elec new_levy_fixed_gas new_levy_fixed_elec
     supply_gas supply_elec customers_gas customers_elec
     tax_revenue target_revenue : ℚ) : Bool :=
  let new_revenue_gas := new_levy_var_gas * supply_gas
    + new_levy_fixed_gas * customers_gas
  let new_revenue_elec := new_levy_var_elec * supply_elec
    + new_levy_fixed_elec * customers_elec
  if |new_revenue_gas + new_revenue_elec + tax_revenue - target_revenue|
      < 1 / 100 then
    true
  else
    false

/-- Outcome of a call to `Levy.rebalance_levy`: whether `ValueError` was
raised, the state of the instance after the call, and the value returned
(`none` both when `inplace` and when an exception was raised). -/
structure RebalanceResult where
  raised : Bool
  self_after : Levy
  returned : Option Levy
deriving DecidableEq, Repr

/-- Method `Levy.rebalance_levy` from `levies.py`.  The candidate rates are computed
first, the conservation check is run on them, and only then (on success) are
attributes assigned: in `inplace` mode the instance itself is updated and
nothing is returned, otherwise a deep copy carrying the new values is
returned and the instance is untouched. -/
def Levy.rebalance_levy (self : Levy)
    (new_electricity_weight new_gas_weight new_tax_weight
     new_variable_weight_elec new_fixed_weight_elec
     new_variable_weight_gas new_fixed_weight_gas
     supply_gas supply_elec customers_gas customers_elec : ℚ)
    (inplace : Bool) : RebalanceResult :=
  let revenue_gas := self.revenue * new_gas_weight
  let revenue_elec := self.revenue * new_electricity_weight
  let revenue_tax := self.revenue * new_tax_weight
  let new_levy_var_gas := revenue_gas / supply_gas * new_variable_weight_gas
  let new_levy_var_elec := revenue_elec / supply_elec * new_variable_weight_elec
  let new_levy_fixed_gas := revenue_gas / customers_gas * new_fixed_weight_gas
  let new_levy_fixed_elec :=
    revenue_elec / customers_elec * new_fixed_weight_elec
  if !(Levy._is_revenue_maintained new_levy_var_gas new_levy_var_elec
      new_levy_fixed_gas new_levy_fixed_elec supply_gas supply_elec
      customers_gas customers_elec revenue_tax self.revenue) then
    { raised := true, self_after := self, returned := none }
  else
    let updated : Levy :=
      { self with
        electricity_weight := new_electricity_weight
        gas_weight := new_gas_weight
        tax_weight := new_tax_weight
        electricity_variable_weight := new_variable_weight_elec
        electricity_fixed_weight := new_fixed_weight_elec
        gas_variable_weight := new_variable_weight_gas
        gas_fixed_weight := new_fixed_weight_gas
        electricity_variable_rate := new_levy_var_elec
        electricity_fixed_rate := new_levy_fixed_elec
        gas_variable_rate := new_levy_var_gas
        gas_fixed_rate := new_levy_fixed_gas
        general_taxation := revenue_tax }
    if inplace then
      { raised := false, self_after := updated, returned := none }
    else
      { raised := false, self_after := self, returned := some updated }

/-- Python truthiness of an optional float argument: `None` and `0` are
falsy, every other number is truthy (`if not revenue:` in the factories). -/
def pyTruthy : Option ℚ → Bool
  | none => false
  | some r => r != 0

/-- Method `RO.calculate_renewable_obligation_rate` from `levies.py`; the scheme-year
buy-out price may be `NaN` (`none`). -/
def RO.calculate_renewable_obligation_rate (ObligationLevel : ℚ)
    (BuyOutPriceSchemeYear : Option ℚ) (BuyOutPricePreviousYear : ℚ) : ℚ :=
  match BuyOutPriceSchemeYear with
  | some p => ObligationLevel * p
  | none => ObligationLevel * BuyOutPricePreviousYear

/-- The latest dated row of the RO scheme table, as selected inside
`RO.from_dataframe` (fields used by the rate and revenue computation). -/
structure RORow where
  ObligationLevel : ℚ
  BuyOutPriceSchemeYear : Option ℚ
  BuyOutPricePreviousYear : ℚ
deriving DecidableEq, Repr

/-- Factory `RO.from_dataframe` from `levies.py`, applied to the selected latest row.
The guard raises `ValueError` only when both `revenue` and `denominator` are
`None`; afterwards `if not revenue:` replaces a falsy revenue (including `0`)
with `ro_levy * denominator`, which is a `TypeError` when `denominator` is
`None`.  Only the `revenue` field of the constructed levy varies; the
remaining constructor arguments are the fixed values in the source. -/
def RO.from_dataframe (latest : RORow)
    (revenue denominator : Option ℚ) : Except String Levy :=
  if revenue.isNone && denominator.isNone then
    .error "ValueError: Please provide either revenue or denominator."
  else
    let ro_levy := RO.calculate_renewable_obligation_rate
      latest.ObligationLevel latest.BuyOutPriceSchemeYear
      latest.BuyOutPricePreviousYear
    let mk : ℚ → Levy := fun rev =>
      { name := "Renewables Obligation"
        short_name := "ro"
        electricity_weight := 1
        gas_weight := 0
        tax_weight := 0
        electricity_variable_weight := 1
        electricity_fixed_weight := 0
        gas_variable_weight := 0
        gas_fixed_weight := 0
        electricity_variable_rate := ro_levy
        electricity_fixed_rate := 0
        gas_variable_rate := 0
        gas_fixed_rate := 0
        general_taxation := 0
        revenue := rev }
    if pyTruthy revenue then
      .ok (mk (revenue.getD 0))
    else
      match denominator with
      | some d => .ok (mk (ro_levy * d))
      | none => .error
          "TypeError: unsupported operand type for float and NoneType"

/-- Method `WHD.calculate_whd_rate` from `levies.py`; `CoreSpending` may be `NaN`. -/
def WHD.calculate_whd_rate (TargetSpendingForSchemeYear : ℚ)
    (CoreSpending : Option ℚ) (NoncoreSpending : ℚ)
    (ObligatedSuppliersCustomerBase : ℚ)
    (CompulsorySupplierFractionOfCoreGroup : ℚ) : ℚ :=
  match CoreSpending with
  | none => TargetSpendingForSchemeYear / ObligatedSuppliersCustomerBase
  | some core =>
      (core * CompulsorySupplierFractionOfCoreGroup + NoncoreSpending)
        / ObligatedSuppliersCustomerBase

/-- The latest dated row of the WHD scheme table, as selected inside
`WHD.from_dataframe` (fields used by the rate and revenue computation). -/
structure WHDRow where
  TargetSpendingForSchemeYear : ℚ
  CoreSpending : Option ℚ
  NoncoreSpending : ℚ
  ObligatedSuppliersCustomerBase : ℚ
  CompulsorySupplierFractionOfCoreGroup : ℚ
deriving DecidableEq, Repr

/-- Factory `WHD.from_dataframe` from `levies.py`, applied to the selected latest row:
`if not revenue:` replaces a falsy revenue (including `0`) with
`TargetSpendingForSchemeYear`. -/
def WHD.from_dataframe (latest : WHDRow) (revenue : Option ℚ) : Levy :=
  let whd_levy := WHD.calculate_whd_rate latest.TargetSpendingForSchemeYear
    latest.CoreSpending latest.NoncoreSpending
    latest.ObligatedSuppliersCustomerBase
    latest.CompulsorySupplierFractionOfCoreGroup
  let rev := if pyTruthy revenue then revenue.getD 0
    else latest.TargetSpendingForSchemeYear
  { name := "Warm Homes Discount"
    short_name := "whd"
    electricity_weight := 1 / 2
    gas_weight := 1 / 2
    tax_weight := 0
    electricity_variable_weight := 0
    electricity_fixed_weight := 1
    gas_variable_weight := 0
    gas_fixed_weight := 1
    electricity_variable_rate := 0
    electricity_fixed_rate := whd_levy
    gas_variable_rate := 0
    gas_fixed_rate := whd_levy
    general_taxation := 0
    revenue := rev }

/-- Addition on embedded floats, propagating `NaN`. -/
def nanAdd : Option ℚ → Option ℚ → Option ℚ
  | some a, some b => some (a + b)
  | _, _ => none

/-- Multiplication on embedded floats, propagating `NaN`. -/
def nanMul : Option ℚ → Option ℚ → Option ℚ
  | some a, some b => some (a * b)
  | _, _ => none

/-- Method `ECO.calculate_eco_rate` from `levies.py`: the `if`/`elif` chain on which
fields are `NaN`, raising `ValueError` when no branch applies.  Arithmetic on
possibly-`NaN` operands propagates `NaN` as Python float arithmetic does. -/
def ECO.calculate_eco_rate
    (AnnualisedCostECO4 AnnualisedCostGBIS
     GDPDeflatorToCurrentPricesECO4 GDPDeflatorToCurrentPricesGBIS
     FullyObligatedShareOfObligatedSupplierSupply : Option ℚ)
    (ObligatedSupplierVolume : ℚ) : Except String (Option ℚ) :=
  if AnnualisedCostECO4.isSome && AnnualisedCostGBIS.isSome then
    .ok ((nanAdd
      (nanMul AnnualisedCostECO4
        (nanAdd (some 1) (GDPDeflatorToCurrentPricesECO4.map (· / 100))))
      (nanMul AnnualisedCostGBIS
        (nanAdd (some 1)
          (GDPDeflatorToCurrentPricesGBIS.map (· / 100))))).map
      (· / ObligatedSupplierVolume))
  else if AnnualisedCostECO4.isSome
      && FullyObligatedShareOfObligatedSupplierSupply.isNone then
    .ok ((nanMul AnnualisedCostECO4
      (nanAdd (some 1) (GDPDeflatorToCurrentPricesECO4.map (· / 100)))).map
      (· / ObligatedSupplierVolume))
  else if AnnualisedCostECO4.isSome
      && FullyObligatedShareOfObligatedSupplierSupply.isSome then
    let deflator : Option ℚ :=
      match GDPDeflatorToCurrentPricesECO4 with
      | none => some 0
      | some d => some d
    .ok ((nanMul
      (nanMul AnnualisedCostECO4 FullyObligatedShareOfObligatedSupplierSupply)
      (nanAdd (some 1) (deflator.map (· / 100)))).map
      (· / ObligatedSupplierVolume))
  else
    .error "ValueError: Insufficient information to calculate ECO rate."

/-- Embedding of the `Tariff` class attributes (`tariffs.py`): twelve
nil-consumption components and twelve matching variable components, any of
which may be undefined (`NaN`/`None` in the source, `none` here). -/
structure Tariff where
  name : String
  short_name : String
  fuel : String
  df_nil : Option ℚ
  cm_nil : Option ℚ
  aa_nil : Option ℚ
  pc_nil : Option ℚ
  nc_nil : Option ℚ
  oc_nil : Option ℚ
  smncc_nil : Option ℚ
  paac_nil : Option ℚ
  pap_nil : Option ℚ
  ebit_nil : Option ℚ
  hap_nil : Option ℚ
  levelisation_nil : Option ℚ
  df : Option ℚ
  cm : Option ℚ
  aa : Option ℚ
  pc : Option ℚ
  nc : Option ℚ
  oc : Option ℚ
  smncc : Option ℚ
  paac : Option ℚ
  pap : Option ℚ
  ebit : Option ℚ
  hap : Option ℚ
  levelisation : Option ℚ
deriving DecidableEq, Repr

/-- The list of nil-consumption components in the order written in
`Tariff.calculate_nil_consumption`. -/
def Tariff.nil_components (self : Tariff) : List (Option ℚ) :=
  [self.df_nil, self.cm_nil, self.aa_nil, self.pc_nil, self.nc_nil,
   self.oc_nil, self.smncc_nil, self.paac_nil, self.pap_nil, self.ebit_nil,
   self.hap_nil, self.levelisation_nil]

/-- The list of variable components in the order written in
`Tariff.calculate_variable_consumption`. -/
def Tariff.variable_components (self : Tariff) : List (Option ℚ) :=
  [self.df, self.cm, self.aa, self.pc, self.nc, self.oc, self.smncc,
   self.paac, self.pap, self.ebit, self.hap, self.levelisation]

/-- Method `Tariff.calculate_nil_consumption` from `tariffs.py`: sum of the
components that are not `NaN` (`pd.isna` filter). -/
def Tariff.calculate_nil_consumption (self : Tariff) : ℚ :=
  (self.nil_components.filterMap id).sum

/-- Method `Tariff.calculate_variable_consumption` from `tariffs.py`: sum of
`component * consumption` over the components that are not `NaN`. -/
def Tariff.calculate_variable_consumption (self : Tariff)
    (consumption : ℚ) : ℚ :=
  ((self.variable_components.filterMap id).map (· * consumption)).sum

/-- Method `Tariff.calculate_total_consumption` from `tariffs.py`. -/
def Tariff.calculate_total_consumption (self : Tariff) (consumption : ℚ)
    (vat : Bool) : ℚ :=
  ((if consumption > 0 then self.calculate_nil_consumption else 0)
      + self.calculate_variable_consumption consumption)
    * (if vat then 21 / 20 else 1)

/-- Spec-side rendering (§4.3 of the spec) of the nil-consumption sum: each
defined component contributes its value and each undefined component is
skipped, rather than contributing a value of its own. -/
def Tariff.nil_sum_spec (self : Tariff) : ℚ :=
  self.nil_components.foldr
    (fun component acc =>
      match component with
      | some v => v + acc
      | none => acc)
    0

/-- Spec-side rendering (§4.3 of the spec) of the variable sum: each defined
component contributes `component * consumption`, undefined skipped. -/
def Tariff.variable_sum_spec (self : Tariff) (consumption : ℚ) : ℚ :=
  self.variable_components.foldr
    (fun component acc =>
      match component with
      | some v => v * consumption + acc
      | none => acc)
    0

/-- The charging-basis summaries handled by `_sum_levies` in `summary.py`
(the keys of its method dictionary: `'fixed'` and `'variable'`). -/
inductive Summary where
  | fixed : Summary
  | variable_ : Summary
deriving DecidableEq, Repr

/-- The fuels handled by `_sum_levies` in `summary.py` (`'gas'` and
`'electricity'`). -/
inductive Fuel where
  | gas : Fuel
  | electricity : Fuel
deriving DecidableEq, Repr

/-- Function `_sum_levies` from `summary.py`: `0.0` whenever the consumption value is
`0`, otherwise the sum over the levies of the method and argument pair picked
by the summary/fuel dictionaries. -/
def _sum_levies (val : ℚ) (summary : Summary) (fuel : Fuel)
    (levies : List Levy) : ℚ :=
  if val = 0 then 0
  else
    match summary, fuel with
    | .fixed, .gas =>
        (levies.map (fun levy => levy.calculate_fixed_levy false true)).sum
    | .fixed, .electricity =>
        (levies.map (fun levy => levy.calculate_fixed_levy true false)).sum
    | .variable_, .gas =>
        (levies.map (fun levy => levy.calculate_variable_levy 0 val)).sum
    | .variable_, .electricity =>
        (levies.map (fun levy => levy.calculate_variable_levy val 0)).sum

/-- The per-row `'total'` summary of `_calculate_policy_costs` in
`summary.py`: rows with nonzero gas consumption use customer flags
`(True, True)`, rows with gas consumption `0` use `(True, False)`. -/
def total_levy_costs (levies : List Levy)
    (electricity_consumption gas_consumption : ℚ) : ℚ :=
  if gas_consumption ≠ 0 then
    (levies.map (fun levy =>
      levy.calculate_levy electricity_consumption gas_consumption
        true true)).sum
  else
    (levies.map (fun levy =>
      levy.calculate_levy electricity_consumption gas_consumption
        true false)).sum

/-- A sample levy satisfying the documented weight invariants, with rates
consistent with denominators `supply_gas = 10`, `supply_elec = 20`,
`customers_gas = 5`, `customers_elec = 4` and revenue `100`. -/
def sampleLevy : Levy :=
  { name := "Sample"
    short_name := "sample"
    electricity_weight := 1 / 2
    gas_weight := 3 / 10
    tax_weight := 1 / 5
    electricity_variable_weight := 3 / 5
    electricity_fixed_weight := 2 / 5
    gas_variable_weight := 1
    gas_fixed_weight := 0
    electricity_variable_rate := 3 / 2
    electricity_fixed_rate := 5
    gas_variable_rate := 3
    gas_fixed_rate := 0
    general_taxation := 20
    revenue := 100 }

lemma is_revenue_maintained_of_eq
    (nvg nve nfg nfe sg se cg ce tax target : ℚ)
    (h : nvg * sg + nfg * cg + (nve * se + nfe * ce) + tax = target) :
    Levy._is_revenue_maintained nvg nve nfg nfe sg se cg ce tax target
      = true := by
  have h0 : nvg * sg + nfg * cg + (nve * se + nfe * ce) + tax - target = 0 := by
    rw [h]; ring
  simp only [Levy._is_revenue_maintained]
  rw [if_pos]
  rw [h0]
  norm_num

lemma rebalance_conservation (R ew gw tw evw efw gvw gfw sg se cg ce : ℚ)
    (h1 : ew + gw + tw = 1) (h2 : evw + efw = 1) (h3 : gvw + gfw = 1)
    (hsg : sg ≠ 0) (hse : se ≠ 0) (hcg : cg ≠ 0) (hce : ce ≠ 0) :
    R * gw / sg * gvw * sg + R * gw / cg * gfw * cg
      + (R * ew / se * evw * se + R * ew / ce * efw * ce)
      + R * tw = R := by
  have e1 : R * gw / sg * gvw * sg = R * gw * gvw := by
    field_simp
  have e2 : R * gw / cg * gfw * cg = R * gw * gfw := by
    field_simp
  have e3 : R * ew / se * evw * se = R * ew * evw := by
    field_simp
  have e4 : R * ew / ce * efw * ce = R * ew * efw := by
    field_simp
  rw [e1, e2, e3, e4]
  linear_combination R * gw * h3 + R * ew * h2 + R * h1

/-- Claim C1: for every levy and rebalancing input whose weights satisfy the
three sum-to-1 invariants and whose four denominators are nonzero,
`rebalance_levy` does not raise (in either `inplace` mode), and the revenues
recomputed from the new rates satisfy
`|new_revenue_gas + new_revenue_elec + revenue_tax - revenue| < 0.01`. -/
theorem rebalance_levy_conserves_revenue (l : Levy)
    (new_electricity_weight new_gas_weight new_tax_weight
     new_variable_weight_elec new_fixed_weight_elec
     new_variable_weight_gas new_fixed_weight_gas
     supply_gas supply_elec customers_gas customers_elec : ℚ)
    (h1 : new_electricity_weight + new_gas_weight + new_tax_weight = 1)
    (h2 : new_variable_weight_elec + new_fixed_weight_elec = 1)
    (h3 : new_variable_weight_gas + new_fixed_weight_gas = 1)
    (hsg : supply_gas ≠ 0) (hse : supply_elec ≠ 0)
    (hcg : customers_gas ≠ 0) (hce : customers_elec ≠ 0) :
    (∀ inplace : Bool,
      (l.rebalance_levy new_electricity_weight new_gas_weight new_tax_weight
        new_variable_weight_elec new_fixed_weight_elec
        new_variable_weight_gas new_fixed_weight_gas
        supply_gas supply_elec customers_gas customers_elec inplace).raised
        = false)
    ∧ ∃ l',
        (l.rebalance_levy new_electricity_weight new_gas_weight new_tax_weight
          new_variable_weight_elec new_fixed_weight_elec
          new_variable_weight_gas new_fixed_weight_gas
          supply_gas supply_elec customers_gas customers_elec false).returned
          = some l'
        ∧ |l'.gas_variable_rate * supply_gas
            + l'.gas_fixed_rate * customers_gas
            + (l'.electricity_variable_rate * supply_elec
              + l'.electricity_fixed_rate * customers_elec)
            + l.revenue * new_tax_weight - l.revenue| < 1 / 100 := by
  have hsum := rebalance_conservation l.revenue new_electricity_weight
    new_gas_weight new_tax_weight new_variable_weight_elec
    new_fixed_weight_elec new_variable_weight_gas new_fixed_weight_gas
    supply_gas supply_elec customers_gas customers_elec
    h1 h2 h3 hsg hse hcg hce
  have hcheck : Levy._is_revenue_maintained
      (l.revenue * new_gas_weight / supply_gas * new_variable_weight_gas)
      (l.revenue * new_electricity_weight / supply_elec
        * new_variable_weight_elec)
      (l.revenue * new_gas_weight / customers_gas * new_fixed_weight_gas)
      (l.revenue * new_electricity_weight / customers_elec
        * new_fixed_weight_elec)
      supply_gas supply_elec customers_gas customers_elec
      (l.revenue * new_tax_weight) l.revenue = true :=
    is_revenue_maintained_of_eq _ _ _ _ _ _ _ _ _ _ hsum
  constructor
  · intro inplace
    cases inplace <;> simp [Levy.rebalance_levy, hcheck]
  · refine ⟨{ l with
      electricity_weight := new_electricity_weight
      gas_weight := new_gas_weight
      tax_weight := new_tax_weight
      electricity_variable_weight := new_variable_weight_elec
      electricity_fixed_weight := new_fixed_weight_elec
      gas_variable_weight := new_variable_weight_gas
      gas_fixed_weight := new_fixed_weight_gas
      electricity_variable_rate := l.revenue * new_electricity_weight
        / supply_elec * new_variable_weight_elec
      electricity_fixed_rate := l.revenue * new_electricity_weight
        / customers_elec * new_fixed_weight_elec
      gas_variable_rate := l.revenue * new_gas_weight / supply_gas
        * new_variable_weight_gas
      gas_fixed_rate := l.revenue * new_gas_weight / customers_gas
        * new_fixed_weight_gas
      general_taxation := l.revenue * new_tax_weight }, ?_, ?_⟩
    · simp [Levy.rebalance_levy, hcheck]
    · simp only []
      rw [abs_lt]
      constructor <;> linarith [hsum]

/-- Claim C1 witness: a concrete application of the conservation theorem. -/
theorem rebalance_levy_conserves_revenue_witness :
    (sampleLevy.rebalance_levy (1/4) (1/4) (1/2) (1/2) (1/2) (1/3) (2/3)
        10 20 5 4 false).raised = false
      ∧ (sampleLevy.rebalance_levy (1/4) (1/4) (1/2) (1/2) (1/2) (1/3) (2/3)
        10 20 5 4 true).raised = false := by
  have h := (rebalance_levy_conserves_revenue sampleLevy (1/4) (1/4) (1/2)
    (1/2) (1/2) (1/3) (2/3) 10 20 5 4
    (by norm_num) (by norm_num) (by norm_num)
    (by norm_num) (by norm_num) (by norm_num) (by norm_num)).1
  exact ⟨h false, h true⟩

/-- Claim C2: whenever the revenue-conservation check fails on the candidate
rates, `rebalance_levy` raises `ValueError` and leaves every attribute of the
levy at its pre-call value, in both `inplace` modes, because the check runs
on computed-but-not-yet-applied rates before any assignment. -/
theorem rebalance_levy_no_mutation_on_failure (l : Levy)
    (new_electricity_weight new_gas_weight new_tax_weight
     new_variable_weight_elec new_fixed_weight_elec
     new_variable_weight_gas new_fixed_weight_gas
     supply_gas supply_elec customers_gas customers_elec : ℚ)
    (h : Levy._is_revenue_maintained
      (l.revenue * new_gas_weight / supply_gas * new_variable_weight_gas)
      (l.revenue * new_electricity_weight / supply_elec
        * new_variable_weight_elec)
      (l.revenue * new_gas_weight / customers_gas * new_fixed_weight_gas)
      (l.revenue * new_electricity_weight / customers_elec
        * new_fixed_weight_elec)
      supply_gas supply_elec customers_gas customers_elec
      (l.revenue * new_tax_weight) l.revenue = false) :
    ∀ inplace : Bool,
      l.rebalance_levy new_electricity_weight new_gas_weight new_tax_weight
        new_variable_weight_elec new_fixed_weight_elec
        new_variable_weight_gas new_fixed_weight_gas
        supply_gas supply_elec customers_gas customers_elec inplace
        = { raised := true, self_after := l, returned := none } := by
  intro inplace
  simp [Levy.rebalance_levy, h]

/-- Claim C2 witness: weights summing to `1.5` fail the check and leave the
sample levy untouched in both modes. -/
theorem rebalance_levy_no_mutation_on_failure_witness :
    sampleLevy.rebalance_levy (1/2) (1/2) (1/2) 1 0 1 0 1 1 1 1 true
        = { raised := true, self_after := sampleLevy, returned := none }
      ∧ sampleLevy.rebalance_levy (1/2) (1/2) (1/2) 1 0 1 0 1 1 1 1 false
        = { raised := true, self_after := sampleLevy, returned := none } := by
  have hfail := rebalance_levy_no_mutation_on_failure sampleLevy
    (1/2) (1/2) (1/2) 1 0 1 0 1 1 1 1
    (by norm_num [Levy._is_revenue_maintained, sampleLevy])
  exact ⟨hfail true, hfail false⟩

/-- Claim C7: when the conservation check passes, `rebalance_levy` with
`inplace=False` returns a new levy carrying the new weights, rates and
`general_taxation` while the original instance is unchanged, and with
`inplace=True` it updates the instance itself and returns nothing. -/
theorem rebalance_levy_frame (l : Levy)
    (new_electricity_weight new_gas_weight new_tax_weight
     new_variable_weight_elec new_fixed_weight_elec
     new_variable_weight_gas new_fixed_weight_gas
     supply_gas supply_elec customers_gas customers_elec : ℚ)
    (h : Levy._is_revenue_maintained
      (l.revenue * new_gas_weight / supply_gas * new_variable_weight_gas)
      (l.revenue * new_electricity_weight / supply_elec
        * new_variable_weight_elec)
      (l.revenue * new_gas_weight / customers_gas * new_fixed_weight_gas)
      (l.revenue * new_electricity_weight / customers_elec
        * new_fixed_weight_elec)
      supply_gas supply_elec customers_gas customers_elec
      (l.revenue * new_tax_weight) l.revenue = true) :
    l.rebalance_levy new_electricity_weight new_gas_weight new_tax_weight
        new_variable_weight_elec new_fixed_weight_elec
        new_variable_weight_gas new_fixed_weight_gas
        supply_gas supply_elec customers_gas customers_elec false
      = { raised := false
          self_after := l
          returned := some { l with
            electricity_weight := new_electricity_weight
            gas_weight := new_gas_weight
            tax_weight := new_tax_weight
            electricity_variable_weight := new_variable_weight_elec
            electricity_fixed_weight := new_fixed_weight_elec
            gas_variable_weight := new_variable_weight_gas
            gas_fixed_weight := new_fixed_weight_gas
            electricity_variable_rate := l.revenue * new_electricity_weight
              / supply_elec * new_variable_weight_elec
            electricity_fixed_rate := l.revenue * new_electricity_weight
              / customers_elec * new_fixed_weight_elec
            gas_variable_rate := l.revenue * new_gas_weight / supply_gas
              * new_variable_weight_gas
            gas_fixed_rate := l.revenue * new_gas_weight / customers_gas
              * new_fixed_weight_gas
            general_taxation := l.revenue * new_tax_weight } }
    ∧ l.rebalance_levy new_electricity_weight new_gas_weight new_tax_weight
        new_variable_weight_elec new_fixed_weight_elec
        new_variable_weight_gas new_fixed_weight_gas
        supply_gas supply_elec customers_gas customers_elec true
      = { raised := false
          self_after := { l with
            electricity_weight := new_electricity_weight
            gas_weight := new_gas_weight
            tax_weight := new_tax_weight
            electricity_variable_weight := new_variable_weight_elec
            electricity_fixed_weight := new_fixed_weight_elec
            gas_variable_weight := new_variable_weight_gas
            gas_fixed_weight := new_fixed_weight_gas
            electricity_variable_rate := l.revenue * new_electricity_weight
              / supply_elec * new_variable_weight_elec
            electricity_fixed_rate := l.revenue * new_electricity_weight
              / customers_elec * new_fixed_weight_elec
            gas_variable_rate := l.revenue * new_gas_weight / supply_gas
              * new_variable_weight_gas
            gas_fixed_rate := l.revenue * new_gas_weight / customers_gas
              * new_fixed_weight_gas
            general_taxation := l.revenue * new_tax_weight }
          returned := none } := by
  constructor <;> simp [Levy.rebalance_levy, h]

/-- Claim C7 witness: a concrete passing rebalance leaves the original
untouched in copy mode and returns nothing in `inplace` mode. -/
theorem rebalance_levy_frame_witness :
    (sampleLevy.rebalance_levy (1/4) (1/4) (1/2) (1/2) (1/2) (1/3) (2/3)
        10 20 5 4 false).self_after = sampleLevy
      ∧ (sampleLevy.rebalance_levy (1/4) (1/4) (1/2) (1/2) (1/2) (1/3) (2/3)
        10 20 5 4 true).returned = none := by
  have h := rebalance_levy_frame sampleLevy (1/4) (1/4) (1/2) (1/2) (1/2)
    (1/3) (2/3) 10 20 5 4
    (by norm_num [Levy._is_revenue_maintained, sampleLevy])
  exact ⟨by rw [h.1], by rw [h.2]⟩

/-- A degenerate levy whose weights are all `0` (violating the documented
sum-to-1 invariants) but whose rates are consistent with unit denominators. -/
def zeroWeightLevy : Levy :=
  { name := "Degenerate"
    short_name := "zero"
    electricity_weight := 0
    gas_weight := 0
    tax_weight := 0
    electricity_variable_weight := 0
    electricity_fixed_weight := 0
    gas_variable_weight := 0
    gas_fixed_weight := 0
    electricity_variable_rate := 0
    electricity_fixed_rate := 0
    gas_variable_rate := 0
    gas_fixed_rate := 0
    general_taxation := 0
    revenue := 1 }

/-- Claim C8 counterexample: `zeroWeightLevy` has every rate equal to
`(revenue * fuel_weight / denominator) * basis_weight` for unit denominators,
yet the no-op rebalance raises rather than yielding a levy with the original
rates, because a levy need not satisfy the sum-to-1 weight invariants. -/
theorem noop_rebalance_counterexample :
    (zeroWeightLevy.electricity_variable_rate
        = zeroWeightLevy.revenue * zeroWeightLevy.electricity_weight / 1
          * zeroWeightLevy.electricity_variable_weight
      ∧ zeroWeightLevy.electricity_fixed_rate
        = zeroWeightLevy.revenue * zeroWeightLevy.electricity_weight / 1
          * zeroWeightLevy.electricity_fixed_weight
      ∧ zeroWeightLevy.gas_variable_rate
        = zeroWeightLevy.revenue * zeroWeightLevy.gas_weight / 1
          * zeroWeightLevy.gas_variable_weight
      ∧ zeroWeightLevy.gas_fixed_rate
        = zeroWeightLevy.revenue * zeroWeightLevy.gas_weight / 1
          * zeroWeightLevy.gas_fixed_weight)
    ∧ (zeroWeightLevy.rebalance_levy zeroWeightLevy.electricity_weight
        zeroWeightLevy.gas_weight zeroWeightLevy.tax_weight
        zeroWeightLevy.electricity_variable_weight
        zeroWeightLevy.electricity_fixed_weight
        zeroWeightLevy.gas_variable_weight zeroWeightLevy.gas_fixed_weight
        1 1 1 1 false).raised = true
    ∧ (zeroWeightLevy.rebalance_levy zeroWeightLevy.electricity_weight
        zeroWeightLevy.gas_weight zeroWeightLevy.tax_weight
        zeroWeightLevy.electricity_variable_weight
        zeroWeightLevy.electricity_fixed_weight
        zeroWeightLevy.gas_variable_weight zeroWeightLevy.gas_fixed_weight
        1 1 1 1 false).returned = none := by
  refine ⟨⟨?_, ?_, ?_, ?_⟩, ?_, ?_⟩ <;>
    norm_num [zeroWeightLevy, Levy.rebalance_levy, Levy._is_revenue_maintained]

/-- Claim C8 (amended): for every levy satisfying the documented sum-to-1
weight invariants, with nonzero denominators consistent with its current
rates, rebalancing with weights equal to the current split yields a levy
whose four rates equal the original rates. -/
theorem noop_rebalance_identity (l : Levy)
    (supply_gas supply_elec customers_gas customers_elec : ℚ)
    (h1 : l.electricity_weight + l.gas_weight + l.tax_weight = 1)
    (h2 : l.electricity_variable_weight + l.electricity_fixed_weight = 1)
    (h3 : l.gas_variable_weight + l.gas_fixed_weight = 1)
    (hsg : supply_gas ≠ 0) (hse : supply_elec ≠ 0)
    (hcg : customers_gas ≠ 0) (hce : customers_elec ≠ 0)
    (hevr : l.electricity_variable_rate = l.revenue * l.electricity_weight
      / supply_elec * l.electricity_variable_weight)
    (hefr : l.electricity_fixed_rate = l.revenue * l.electricity_weight
      / customers_elec * l.electricity_fixed_weight)
    (hgvr : l.gas_variable_rate = l.revenue * l.gas_weight
      / supply_gas * l.gas_variable_weight)
    (hgfr : l.gas_fixed_rate = l.revenue * l.gas_weight
      / customers_gas * l.gas_fixed_weight) :
    ∃ l',
      (l.rebalance_levy l.electricity_weight l.gas_weight l.tax_weight
        l.electricity_variable_weight l.electricity_fixed_weight
        l.gas_variable_weight l.gas_fixed_weight
        supply_gas supply_elec customers_gas customers_elec false).returned
        = some l'
      ∧ l'.electricity_variable_rate = l.electricity_variable_rate
      ∧ l'.electricity_fixed_rate = l.electricity_fixed_rate
      ∧ l'.gas_variable_rate = l.gas_variable_rate
      ∧ l'.gas_fixed_rate = l.gas_fixed_rate := by
  have hsum := rebalance_conservation l.revenue l.electricity_weight
    l.gas_weight l.tax_weight l.electricity_variable_weight
    l.electricity_fixed_weight l.gas_variable_weight l.gas_fixed_weight
    supply_gas supply_elec customers_gas customers_elec
    h1 h2 h3 hsg hse hcg hce
  have hcheck : Levy._is_revenue_maintained
      (l.revenue * l.gas_weight / supply_gas * l.gas_variable_weight)
      (l.revenue * l.electricity_weight / supply_elec
        * l.electricity_variable_weight)
      (l.revenue * l.gas_weight / customers_gas * l.gas_fixed_weight)
      (l.revenue * l.electricity_weight / customers_elec
        * l.electricity_fixed_weight)
      supply_gas supply_elec customers_gas customers_elec
      (l.revenue * l.tax_weight) l.revenue = true :=
    is_revenue_maintained_of_eq _ _ _ _ _ _ _ _ _ _ hsum
  refine ⟨{ l with
      electricity_variable_rate := l.revenue * l.electricity_weight
        / supply_elec * l.electricity_variable_weight
      electricity_fixed_rate := l.revenue * l.electricity_weight
        / customers_elec * l.electricity_fixed_weight
      gas_variable_rate := l.revenue * l.gas_weight / supply_gas
        * l.gas_variable_weight
      gas_fixed_rate := l.revenue * l.gas_weight / customers_gas
        * l.gas_fixed_weight
      general_taxation := l.revenue * l.tax_weight }, ?_, ?_, ?_, ?_, ?_⟩
  · simp [Levy.rebalance_levy, hcheck]
  · exact hevr.symm
  · exact hefr.symm
  · exact hgvr.symm
  · exact hgfr.symm

/-- Claim C8 witness: the no-op rebalance of the sample levy (denominators
`10, 20, 5, 4` are consistent with its rates) reproduces its rates. -/
theorem noop_rebalance_identity_witness :
    ∃ l',
      (sampleLevy.rebalance_levy sampleLevy.electricity_weight
        sampleLevy.gas_weight sampleLevy.tax_weight
        sampleLevy.electricity_variable_weight
        sampleLevy.electricity_fixed_weight
        sampleLevy.gas_variable_weight sampleLevy.gas_fixed_weight
        10 20 5 4 false).returned = some l'
      ∧ l'.electricity_variable_rate = sampleLevy.electricity_variable_rate
      ∧ l'.electricity_fixed_rate = sampleLevy.electricity_fixed_rate
      ∧ l'.gas_variable_rate = sampleLevy.gas_variable_rate
      ∧ l'.gas_fixed_rate = sampleLevy.gas_fixed_rate := by
  exact noop_rebalance_identity sampleLevy 10 20 5 4
    (by norm_num [sampleLevy]) (by norm_num [sampleLevy])
    (by norm_num [sampleLevy]) (by norm_num) (by norm_num) (by norm_num)
    (by norm_num) (by norm_num [sampleLevy]) (by norm_num [sampleLevy])
    (by norm_num [sampleLevy]) (by norm_num [sampleLevy])

lemma filterMap_sum_skip (L : List (Option ℚ)) :
    (L.filterMap id).sum
      = L.foldr
          (fun component acc =>
            match component with
            | some v => v + acc
            | none => acc)
          0 := by
  induction L with
  | nil => rfl
  | cons hd tl ih =>
      cases hd <;> simp [List.filterMap_cons, ih]

lemma filterMap_mul_sum_skip (L : List (Option ℚ)) (c : ℚ) :
    ((L.filterMap id).map (· * c)).sum
      = L.foldr
          (fun component acc =>
            match component with
            | some v => v * c + acc
            | none => acc)
          0 := by
  induction L with
  | nil => rfl
  | cons hd tl ih =>
      cases hd <;> simp [List.filterMap_cons, ih]

/-- Claim C3: for every tariff, consumption and VAT flag, the total equals
`((nil_sum if consumption > 0 else 0) + variable_sum consumption) * (1.05 if
vat else 1.0)`, where the nil and variable sums range over exactly the
defined components — an undefined component is skipped, not given a value. -/
theorem calculate_total_consumption_contract (t : Tariff) (consumption : ℚ)
    (vat : Bool) :
    t.calculate_total_consumption consumption vat
      = ((if consumption > 0 then t.nil_sum_spec else 0)
          + t.variable_sum_spec consumption)
        * (if vat then 21 / 20 else 1)
      ∧ t.calculate_nil_consumption = t.nil_sum_spec
      ∧ t.calculate_variable_consumption consumption
        = t.variable_sum_spec consumption := by
  have hnil : t.calculate_nil_consumption = t.nil_sum_spec :=
    filterMap_sum_skip t.nil_components
  have hvar : t.calculate_variable_consumption consumption
      = t.variable_sum_spec consumption :=
    filterMap_mul_sum_skip t.variable_components consumption
  exact ⟨by rw [Tariff.calculate_total_consumption, hnil, hvar], hnil, hvar⟩

/-- Claim C4: the four cases of the ECO rate derivation, following the
source's `if`/`elif` order: both annualised costs present; only ECO4 present
with the fully-obligated share absent; only ECO4 present with the share
present (ECO4 deflator defaulting to 0 when absent); and everything else
raising a `ValueError`. -/
theorem calculate_eco_rate_branches :
    (∀ (e g p q : ℚ) (share : Option ℚ) (vol : ℚ),
      ECO.calculate_eco_rate (some e) (some g) (some p) (some q) share vol
        = .ok (some ((e * (1 + p / 100) + g * (1 + q / 100)) / vol)))
    ∧ (∀ (e p : ℚ) (d2 : Option ℚ) (vol : ℚ),
      ECO.calculate_eco_rate (some e) none (some p) d2 none vol
        = .ok (some ((e * (1 + p / 100)) / vol)))
    ∧ (∀ (e s p : ℚ) (d2 : Option ℚ) (vol : ℚ),
      ECO.calculate_eco_rate (some e) none (some p) d2 (some s) vol
        = .ok (some ((e * s * (1 + p / 100)) / vol)))
    ∧ (∀ (e s : ℚ) (d2 : Option ℚ) (vol : ℚ),
      ECO.calculate_eco_rate (some e) none none d2 (some s) vol
        = .ok (some ((e * s) / vol)))
    ∧ (∀ (g d1 d2 share : Option ℚ) (vol : ℚ),
      ECO.calculate_eco_rate none g d1 d2 share vol
        = .error "ValueError: Insufficient information to calculate ECO rate.") := by
  refine ⟨?_, ?_, ?_, ?_, ?_⟩
  · intro e g p q share vol
    simp [ECO.calculate_eco_rate, nanAdd, nanMul]
  · intro e p d2 vol
    simp [ECO.calculate_eco_rate, nanAdd, nanMul]
  · intro e s p d2 vol
    simp [ECO.calculate_eco_rate, nanAdd, nanMul]
  · intro e s d2 vol
    simp [ECO.calculate_eco_rate, nanAdd, nanMul]
  · intro g d1 d2 share vol
    cases g <;> simp [ECO.calculate_eco_rate]

/-- Claim C5: in the `'total'` summary, an archetype row with gas consumption
exactly `0` is charged as an electricity-only customer — the sum over levies
of `calculate_levy(elec, 0, True, False)`, which contains no gas fixed
charge — while any row with nonzero gas consumption uses customer flags
`(True, True)`. -/
theorem total_levy_costs_off_gas (levies : List Levy)
    (electricity_consumption gas_consumption : ℚ) :
    (gas_consumption = 0 →
      total_levy_costs levies electricity_consumption gas_consumption
        = (levies.map (fun levy =>
            levy.calculate_levy electricity_consumption 0 true false)).sum
      ∧ total_levy_costs levies electricity_consumption gas_consumption
        = (levies.map (fun levy =>
            levy.electricity_variable_rate * electricity_consumption
              + levy.electricity_fixed_rate)).sum)
    ∧ (gas_consumption ≠ 0 →
      total_levy_costs levies electricity_consumption gas_consumption
        = (levies.map (fun levy =>
            levy.calculate_levy electricity_consumption gas_consumption
              true true)).sum) := by
  constructor
  · intro h0
    subst h0
    constructor
    · simp [total_levy_costs]
    · simp [total_levy_costs, Levy.calculate_levy,
        Levy.calculate_variable_levy, Levy.calculate_fixed_levy]
  · intro hne
    simp [total_levy_costs, hne]

/-- Claim C5 witness: a concrete off-gas row and a concrete on-gas row. -/
theorem total_levy_costs_off_gas_witness :
    total_levy_costs [sampleLevy] 2 0
      = ([sampleLevy].map (fun levy =>
          levy.calculate_levy 2 0 true false)).sum
    ∧ total_levy_costs [sampleLevy] 2 3
      = ([sampleLevy].map (fun levy =>
          levy.calculate_levy 2 3 true true)).sum := by
  exact ⟨((total_levy_costs_off_gas [sampleLevy] 2 0).1 rfl).1,
    (total_levy_costs_off_gas [sampleLevy] 2 3).2 (by norm_num)⟩

/-- Claim C6 counterexample: the claimed value `3087.28 (±0.01)` for
`ObligationLevel = 43.98` with `BuyOutPriceSchemeYear = 70.17` is wrong —
the code computes `43.98 × 70.17 = 3086.0766` — and the `NaN` fallback value
`43.98 × 65.20 = 2867.496` is not exactly `2867.50` either. -/
theorem ro_rate_values_counterexample :
    ¬ (|RO.calculate_renewable_obligation_rate (4398/100)
        (some (7017/100)) (652/10) - 308728/100| < 1 / 100)
    ∧ RO.calculate_renewable_obligation_rate (4398/100) none (652/10)
      ≠ 28675/10 := by
  constructor <;>
    norm_num [RO.calculate_renewable_obligation_rate, abs_lt]

/-- Claim C6 (amended): the RO rate is `ObligationLevel ×
BuyOutPriceSchemeYear` when the scheme-year buy-out price is present and
`ObligationLevel × BuyOutPricePreviousYear` otherwise; for
`ObligationLevel = 43.98` and `BuyOutPriceSchemeYear = 70.17` the rate is
`3086.08 (±0.01)`, and with the scheme-year price `NaN` and previous-year
price `65.20` the rate is `2867.50 (±0.01)`. -/
theorem ro_rate_formula :
    (∀ (ol bp pr : ℚ),
      RO.calculate_renewable_obligation_rate ol (some bp) pr = ol * bp
      ∧ RO.calculate_renewable_obligation_rate ol none pr = ol * pr)
    ∧ (∀ pr : ℚ,
      |RO.calculate_renewable_obligation_rate (4398/100) (some (7017/100)) pr
        - 308608/100| < 1 / 100)
    ∧ |RO.calculate_renewable_obligation_rate (4398/100) none (652/10)
        - 28675/10| < 1 / 100 := by
  refine ⟨fun ol bp pr => ⟨rfl, rfl⟩, fun pr => ?_, ?_⟩ <;>
    norm_num [RO.calculate_renewable_obligation_rate, abs_lt]

/-- Claim C9: `_sum_levies` returns `0.0` whenever the consumption value is
`0`, for every summary (including the fixed, per-customer one), every fuel
and every list of levies, whatever their fixed rates. -/
theorem sum_levies_zero_consumption (summary : Summary) (fuel : Fuel)
    (levies : List Levy) :
    _sum_levies 0 summary fuel levies = 0 := by
  simp [_sum_levies]

/-- Claim C10: the factories apply the default revenue under a falsy check
rather than an is-`None` check, so a supplied revenue of `0` is treated as
missing: `RO.from_dataframe` with `revenue=0` and a denominator yields
`revenue = rate × denominator`; `WHD.from_dataframe` with `revenue=0` yields
`revenue = TargetSpendingForSchemeYear`; and `RO.from_dataframe` with
`revenue=0, denominator=None` passes the either-provided guard yet fails
with a `TypeError` instead of producing a levy. -/
theorem factories_falsy_revenue :
    (∀ (row : RORow) (d : ℚ),
      ∃ l, RO.from_dataframe row (some 0) (some d) = .ok l
        ∧ l.revenue = RO.calculate_renewable_obligation_rate
            row.ObligationLevel row.BuyOutPriceSchemeYear
            row.BuyOutPricePreviousYear * d)
    ∧ (∀ row : WHDRow,
      (WHD.from_dataframe row (some 0)).revenue
        = row.TargetSpendingForSchemeYear)
    ∧ (∀ row : RORow,
      RO.from_dataframe row (some 0) none
        = .error "TypeError: unsupported operand type for float and NoneType") := by
  refine ⟨?_, ?_, ?_⟩
  · intro row d
    refine ⟨{ name := "Renewables Obligation", short_name := "ro",
              electricity_weight := 1, gas_weight := 0, tax_weight := 0,
              electricity_variable_weight := 1,
              electricity_fixed_weight := 0,
              gas_variable_weight := 0, gas_fixed_weight := 0,
              electricity_variable_rate :=
                RO.calculate_renewable_obligation_rate row.ObligationLevel
                  row.BuyOutPriceSchemeYear row.BuyOutPricePreviousYear,
              electricity_fixed_rate := 0, gas_variable_rate := 0,
              gas_fixed_rate := 0, general_taxation := 0,
              revenue :=
                RO.calculate_renewable_obligation_rate row.ObligationLevel
                  row.BuyOutPriceSchemeYear row.BuyOutPricePreviousYear
                  * d }, ?_, rfl⟩
    simp [RO.from_dataframe, pyTruthy]
  · intro row
    simp [WHD.from_dataframe, pyTruthy]
  · intro row
    simp [RO.from_dataframe, pyTruthy]

end AsfLeviesModel
